import Mathlib

/-!
Verification development for the `nahid_learns` repository: a Docusaurus
documentation site consisting of a sidebar configuration (`sidebars.ts`),
a site configuration (`docusaurus.config.ts`), homepage components
(`src/pages/index.tsx` and a variant of the same page), and a corpus of
Markdown content documents under `docs/`.

The data model and the component rendering functions are embedded shallowly:
the TypeScript object literals become Lean structure/list literals, and the
JSX component bodies become functions producing a `Node` markup tree.
-/

namespace NahidLearns

/-! ## Sidebar model (`sidebars.ts`)

A sidebar entry is either a plain doc id (a string shorthand item) or a
category with a label, an optional doc link (`link: {type: "doc", id}` in the
source; every category in this repository carries one) and an ordered list of
child items. -/

inductive SidebarItem where
  | doc (id : String)
  | category (label : String) (link : Option String) (items : List SidebarItem)

/-- The `sidebars` object exported by `sidebars.ts`, key by key and item by
item, in source order. -/
def sidebars : List (String × List SidebarItem) :=
  [ ("problemSolvingSidebar",
      [ .category "Problem Solving" (some "problem-solving/intro")
          [ .category "Competitive Programming Concepts"
              (some "problem-solving/cp-concepts/intro")
              [ .doc "problem-solving/cp-concepts/time-complexity"
              , .doc "problem-solving/cp-concepts/data-structures"
              , .doc "problem-solving/cp-concepts/algorithms"
              , .doc "problem-solving/cp-concepts/dynamic-programming" ] ] ])
  , ("aiSidebar",
      [ .category "AI & Machine Learning" (some "ai/intro") [] ])
  , ("appDevSidebar",
      [ .category "App Development" (some "app-development/intro") [] ])
  , ("webDevSidebar",
      [ .category "Web Development" (some "web-development/intro")
          [ .category "Next.js" (some "web-development/nextjs/intro")
              [ .doc "web-development/nextjs/getting-started"
              , .doc "web-development/nextjs/routing"
              , .doc "web-development/nextjs/data-fetching" ]
          , .category "React.js" (some "web-development/reactjs/intro")
              [ .doc "web-development/reactjs/hooks"
              , .doc "web-development/reactjs/state-management"
              , .doc "web-development/reactjs/performance"
              , .doc "web-development/reactjs/testing"
              , .doc "web-development/reactjs/security" ] ] ]) ]

mutual

/-- All document ids referenced by a sidebar item: the category's doc link (if
any) followed by the ids referenced by its children; a leaf contributes its own
id. -/
def SidebarItem.docIds : SidebarItem → List String
  | .doc id => [id]
  | .category _ link items => link.toList ++ sidebarListDocIds items

def sidebarListDocIds : List SidebarItem → List String
  | [] => []
  | x :: xs => x.docIds ++ sidebarListDocIds xs

end

mutual

/-- Number of nodes of a sidebar item tree (the item itself plus all
descendants); evaluating it to a concrete numeral exhibits the tree as finite. -/
def SidebarItem.nodeCount : SidebarItem → Nat
  | .doc _ => 1
  | .category _ _ items => 1 + sidebarListNodeCount items

def sidebarListNodeCount : List SidebarItem → Nat
  | [] => 0
  | x :: xs => x.nodeCount + sidebarListNodeCount xs

end

/-- Every document id referenced anywhere in the four sidebars, in traversal
order. -/
def allSidebarDocIds : List String :=
  (sidebars.map fun s => sidebarListDocIds s.snd).flatten

/-- Total number of nodes across the four sidebars. -/
def totalSidebarNodes : Nat :=
  (sidebars.map fun s => sidebarListNodeCount s.snd).foldl (· + ·) 0

/-! ## Docs corpus

One entry per content Markdown document in the repository, with the document
id (the path of the file under `docs/`, without extension) and the
`sidebar_position` value of its front-matter block (`none` would mean the
document has no such key; every document in this corpus has one).

Modelled from the spec: the repository excerpt contains every document's full
text, but the file names of some documents are not part of the excerpt (they
are supplied as unnamed source files, or appended to a named file). For those
documents the id is assigned from the document's own title and front-matter
and from the position the sidebar and spec give it (e.g. the document titled
"Introduction to App Development" is `app-development/intro`); the id
`ai/generative-ai` for the document titled "Introduction to Generative AI",
which no sidebar references, is a name choice only. -/

structure Doc where
  id : String
  sidebarPosition : Option Int
deriving DecidableEq

/-- The content documents of the repository with their front-matter
`sidebar_position` values. -/
def docsCorpus : List Doc :=
  [ ⟨"problem-solving/intro", some 1⟩
  , ⟨"problem-solving/cp-concepts/intro", some 1⟩
  , ⟨"problem-solving/cp-concepts/time-complexity", some 2⟩
  , ⟨"problem-solving/cp-concepts/data-structures", some 3⟩
  , ⟨"problem-solving/cp-concepts/algorithms", some 4⟩
  , ⟨"problem-solving/cp-concepts/dynamic-programming", some 5⟩
  , ⟨"ai/intro", some 1⟩
  , ⟨"ai/generative-ai", some 1⟩
  , ⟨"app-development/intro", some 1⟩
  , ⟨"web-development/intro", some 1⟩
  , ⟨"web-development/nextjs/intro", some 1⟩
  , ⟨"web-development/nextjs/getting-started", some 2⟩
  , ⟨"web-development/nextjs/routing", some 3⟩
  , ⟨"web-development/nextjs/data-fetching", some 4⟩
  , ⟨"web-development/reactjs/intro", some 1⟩
  , ⟨"web-development/reactjs/hooks", some 2⟩
  , ⟨"web-development/reactjs/state-management", some 3⟩
  , ⟨"web-development/reactjs/performance", some 4⟩
  , ⟨"web-development/reactjs/testing", some 5⟩
  , ⟨"web-development/reactjs/security", some 6⟩ ]

/-- The ids of the documents in the corpus. -/
def docsCorpusIds : List String := docsCorpus.map Doc.id

/-! ## Site configuration (`docusaurus.config.ts`)

The configuration is a single object literal. Its one non-literal field is the
footer copyright, built from `new Date().getFullYear()`: the calendar year at
the moment the configuration value is evaluated. The evaluation-time year is
therefore an explicit parameter of the embedding. -/

inductive NavbarItem where
  | docSidebar (sidebarId position label : String)
  | toItem (toRoute label position : String)
  | hrefItem (href label position : String)
deriving DecidableEq

/-- One entry of a footer column: a label plus an internal route (`to`) or an
external URL (`href`). -/
structure FooterItem where
  label : String
  toRoute : Option String
  href : Option String
deriving DecidableEq

structure FooterColumn where
  title : String
  items : List FooterItem
deriving DecidableEq

structure Config where
  title : String
  tagline : String
  favicon : String
  url : String
  baseUrl : String
  organizationName : String
  projectName : String
  onBrokenLinks : String
  onBrokenMarkdownLinks : String
  i18nDefaultLocale : String
  i18nLocales : List String
  docsSidebarPath : String
  docsEditUrl : String
  blogShowReadingTime : Bool
  blogFeedTypes : List String
  blogFeedXslt : Bool
  blogEditUrl : String
  blogOnInlineTags : String
  blogOnInlineAuthors : String
  blogOnUntruncatedBlogPosts : String
  themeCustomCss : String
  socialCardImage : String
  navbarTitle : String
  navbarLogoAlt : String
  navbarLogoSrc : String
  navbarItems : List NavbarItem
  footerStyle : String
  footerLinks : List FooterColumn
  copyright : String
  docsSidebarHideable : Bool
  docsSidebarAutoCollapseCategories : Bool
  colorModeDefaultMode : String
  colorModeDisableSwitch : Bool
  colorModeRespectPrefersColorScheme : Bool
deriving DecidableEq

/-- The `config` object of `docusaurus.config.ts`, evaluated when the current
calendar year is `year` (the only clock-dependent field is the footer
copyright). -/
def configAt (year : Int) : Config :=
  { title := "Nahid Learns"
  , tagline := "My Learning Journey in Tech"
  , favicon := "img/favicon.ico"
  , url := "https://nahid-learns.vercel.app"
  , baseUrl := "/"
  , organizationName := "nahid"
  , projectName := "nahid-learns"
  , onBrokenLinks := "throw"
  , onBrokenMarkdownLinks := "warn"
  , i18nDefaultLocale := "en"
  , i18nLocales := ["en"]
  , docsSidebarPath := "./sidebars.ts"
  , docsEditUrl := "https://github.com/nahid/nahid-learns/tree/main/"
  , blogShowReadingTime := true
  , blogFeedTypes := ["rss", "atom"]
  , blogFeedXslt := true
  , blogEditUrl := "https://github.com/nahid/nahid-learns/tree/main/"
  , blogOnInlineTags := "warn"
  , blogOnInlineAuthors := "warn"
  , blogOnUntruncatedBlogPosts := "warn"
  , themeCustomCss := "./src/css/custom.css"
  , socialCardImage := "img/nahid-learns-social-card.jpg"
  , navbarTitle := "NahidLearns"
  , navbarLogoAlt := "Nahid Learns Logo"
  , navbarLogoSrc := "img/logo.svg"
  , navbarItems :=
      [ .docSidebar "problemSolvingSidebar" "left" "Problem Solving"
      , .docSidebar "webDevSidebar" "left" "Web Development"
      , .docSidebar "aiSidebar" "left" "AI & ML"
      , .docSidebar "appDevSidebar" "left" "App Development"
      , .toItem "/blog" "Blog" "left"
      , .hrefItem "https://github.com/nahid/nahid-learns" "GitHub" "right" ]
  , footerStyle := "dark"
  , footerLinks :=
      [ ⟨"Learn",
          [ ⟨"Problem Solving", some "/docs/problem-solving/intro", none⟩
          , ⟨"Web Development", some "/docs/web-development/intro", none⟩
          , ⟨"AI & Machine Learning", some "/docs/ai/intro", none⟩
          , ⟨"App Development", some "/docs/app-development/intro", none⟩ ]⟩
      , ⟨"Connect",
          [ ⟨"GitHub", none, some "https://github.com/nahid"⟩
          , ⟨"Twitter", none, some "https://twitter.com/nahid"⟩
          , ⟨"LinkedIn", none, some "https://linkedin.com/in/nahid"⟩ ]⟩
      , ⟨"More",
          [ ⟨"Blog", some "/blog", none⟩
          , ⟨"Source Code", none, some "https://github.com/nahid/nahid-learns"⟩ ]⟩ ]
  , copyright := "Copyright © " ++ toString year ++ " Nahid Learns."
  , docsSidebarHideable := true
  , docsSidebarAutoCollapseCategories := true
  , colorModeDefaultMode := "light"
  , colorModeDisableSwitch := false
  , colorModeRespectPrefersColorScheme := true }

/-- The error-policy (`on*`) settings the configuration sets, as
(setting, value) pairs, in source order. -/
def errorHandlingSettings (c : Config) : List (String × String) :=
  [ ("onBrokenLinks", c.onBrokenLinks)
  , ("onBrokenMarkdownLinks", c.onBrokenMarkdownLinks)
  , ("onInlineTags", c.blogOnInlineTags)
  , ("onInlineAuthors", c.blogOnInlineAuthors)
  , ("onUntruncatedBlogPosts", c.blogOnUntruncatedBlogPosts) ]

/-- The error handling the spec's words describe: a broken internal link fails
the build, a broken Markdown link warns, and nothing else is configured.
(Spec-side definition, to be compared with `errorHandlingSettings`.) -/
def specErrorHandlingSettings : List (String × String) :=
  [ ("onBrokenLinks", "throw")
  , ("onBrokenMarkdownLinks", "warn") ]

/-- The `sidebarId` values of the navbar's `docSidebar` items. -/
def navbarSidebarIds (c : Config) : List String :=
  c.navbarItems.filterMap fun it =>
    match it with
    | .docSidebar sid _ _ => some sid
    | _ => none

/-- Internal (`to`) routes of the navbar items. -/
def navbarInternalLinks (c : Config) : List String :=
  c.navbarItems.filterMap fun it =>
    match it with
    | .toItem r _ _ => some r
    | _ => none

/-- Internal (`to`) routes of the footer columns. -/
def footerInternalLinks (c : Config) : List String :=
  (c.footerLinks.map fun col => col.items.filterMap FooterItem.toRoute).flatten

/-- Routes of the pages the build produces that content can target: one
`/docs/<id>` page per corpus document, plus the blog index generated by the
enabled blog plugin. -/
def builtRoutes : List String :=
  (docsCorpus.map fun d => "/docs/" ++ d.id) ++ ["/blog"]

/-! ## Markup model

JSX elements become `Node.element tag attrs children`; interpolated strings and
literal prose become `Node.text`. The Docusaurus `Link` component is the
element tagged `"Link"`, with its internal route in the `"to"` attribute. CSS
module classes (`styles.x`) are written by their source name. -/

inductive Node where
  | element (tag : String) (attrs : List (String × String)) (children : List Node)
  | text (s : String)

/-- The `i`-th child of an element node. -/
def Node.child : Node → Nat → Option Node
  | .element _ _ cs, i => cs.get? i
  | .text _, _ => none

/-- The value of attribute `key` on an element node. -/
def Node.attr : Node → String → Option String
  | .element _ as _, key => (as.find? fun p => p.fst == key).map Prod.snd
  | .text _, _ => none

/-- The string content of a text node. -/
def Node.textOf : Node → Option String
  | .text s => some s
  | .element _ _ _ => none

/-- The shape of a markup tree: tag names, attribute names, and the positions
of text slots, with all text content and attribute values erased. -/
inductive Shape where
  | tag (name : String) (attrKeys : List String) (children : List Shape)
  | textSlot

mutual

def Node.shape : Node → Shape
  | .element t as cs => .tag t (as.map Prod.fst) (nodeListShape cs)
  | .text _ => .textSlot

def nodeListShape : List Node → List Shape
  | [] => []
  | n :: ns => n.shape :: nodeListShape ns

end

mutual

/-- All internal route targets of `Link` elements in a markup tree, in
document order. -/
def Node.linkTargets : Node → List String
  | .element t as cs =>
      (if t == "Link" then (((as.find? fun p => p.fst == "to").map Prod.snd).toList) else [])
        ++ nodeListLinkTargets cs
  | .text _ => []

def nodeListLinkTargets : List Node → List String
  | [] => []
  | n :: ns => n.linkTargets ++ nodeListLinkTargets ns

end

/-! ## Homepage components (`src/pages/index.tsx`)

`FeatureItem.description` is typed `ReactNode` in the source; every authored
description is a JSX fragment containing a single run of plain text, and is
embedded as that text. -/

structure FeatureItem where
  title : String
  description : String
  link : String
  icon : String
deriving DecidableEq

/-- The `FeatureList` array of `src/pages/index.tsx` (identical in the variant
homepage). -/
def FeatureList : List FeatureItem :=
  [ ⟨"Problem Solving",
     "Master algorithms, data structures, and competitive programming techniques to solve complex problems efficiently.",
     "/docs/problem-solving/intro", "🧩"⟩
  , ⟨"Web Development",
     "Build modern web applications with React, Next.js, and other cutting-edge technologies through practical, hands-on projects.",
     "/docs/web-development/intro", "🌐"⟩
  , ⟨"AI & Machine Learning",
     "Explore the world of artificial intelligence, from basic ML algorithms to advanced neural networks and practical LLM applications.",
     "/docs/ai/intro", "🤖"⟩
  , ⟨"App Development",
     "Create cross-platform mobile applications with React Native and Flutter, from development environment setup to app store deployment.",
     "/docs/app-development/intro", "📱"⟩ ]

/-- The `Feature` component: one card per feature item. -/
def Feature (f : FeatureItem) : Node :=
  .element "div" [("className", "col col--6 margin-vert--lg")]
    [ .element "div" [("className", "card featureCard")]
        [ .element "div" [("className", "card__header")]
            [ .element "div" [("className", "featureIcon")] [.text f.icon]
            , .element "Heading" [("as", "h3")] [.text f.title] ]
        , .element "div" [("className", "card__body")] [.text f.description]
        , .element "div" [("className", "card__footer")]
            [ .element "Link"
                [("className", "button button--primary button--sm"), ("to", f.link)]
                [.text "Learn More"] ] ] ]

/-- The `HomepageHeader` component of the current homepage. Its only inputs
are `siteConfig.title` and `siteConfig.tagline`; the "Documentation" button is
commented out in this version of the source and so produces no node. -/
def HomepageHeader (c : Config) : Node :=
  .element "header" [("className", "hero heroBanner")]
    [ .element "div" [("className", "container")]
        [ .element "div" [("className", "row")]
            [ .element "div" [("className", "col col--6")]
                [ .element "Heading" [("as", "h1"), ("className", "hero__title")]
                    [.text c.title]
                , .element "p" [("className", "hero__subtitle")] [.text c.tagline]
                , .element "div" [("className", "buttons")]
                    [ .element "Link"
                        [ ("className", "button button--primary button--lg margin-right--md")
                        , ("to", "/docs/problem-solving/intro") ]
                        [.text "Start Learning"] ] ]
            , .element "div" [("className", "col col--6")]
                [ .element "div" [("className", "heroImage")]
                    [ .element "img"
                        [ ("src", "/img/learning-illustration.svg")
                        , ("alt", "Learning journey illustration")
                        , ("width", "100%") ] [] ] ] ] ] ]

/-- The features section body: `FeatureList.map((props, idx) => <Feature ...>)`,
for an arbitrary feature-item array. -/
def renderFeatures (fs : List FeatureItem) : List Node :=
  fs.map Feature

/-- The `Home` page component, with the feature-item array as an explicit
parameter. -/
def HomeWith (c : Config) (fs : List FeatureItem) : Node :=
  .element "Layout"
    [ ("title", c.title)
    , ("description", "A learning journey in tech, problem-solving, AI, web and app development") ]
    [ HomepageHeader c
    , .element "main" []
        [ .element "section" [("className", "features")]
            [ .element "div" [("className", "container")]
                [ .element "Heading" [("as", "h2"), ("className", "text--center margin-bottom--lg")]
                    [.text "What You\x27ll Learn"]
                , .element "div" [("className", "row")] (renderFeatures fs) ] ] ] ]

/-- The default-exported `Home` component of `src/pages/index.tsx`: `HomeWith`
applied to the module-level `FeatureList`. -/
def Home (c : Config) : Node :=
  HomeWith c FeatureList

/-! ## Variant homepage

The repository also carries a variant of `src/pages/index.tsx` in which the
"Documentation" hero button is not commented out and the page has two extra
sections (`WhySection`, `RecentUpdates`). -/

/-- The `HomepageHeader` of the variant homepage: same as the current one,
plus the active "Documentation" button targeting `/docs/intro`. -/
def HomepageHeaderVariant (c : Config) : Node :=
  .element "header" [("className", "hero heroBanner")]
    [ .element "div" [("className", "container")]
        [ .element "div" [("className", "row")]
            [ .element "div" [("className", "col col--6")]
                [ .element "Heading" [("as", "h1"), ("className", "hero__title")]
                    [.text c.title]
                , .element "p" [("className", "hero__subtitle")] [.text c.tagline]
                , .element "div" [("className", "buttons")]
                    [ .element "Link"
                        [ ("className", "button button--primary button--lg margin-right--md")
                        , ("to", "/docs/problem-solving/intro") ]
                        [.text "Start Learning"]
                    , .element "Link"
                        [ ("className", "button button--outline button--lg button--secondary")
                        , ("to", "/docs/intro") ]
                        [.text "Documentation"] ] ]
            , .element "div" [("className", "col col--6")]
                [ .element "div" [("className", "heroImage")]
                    [ .element "img"
                        [ ("src", "/img/learning-illustration.svg")
                        , ("alt", "Learning journey illustration")
                        , ("width", "100%") ] [] ] ] ] ] ]

/-- One "why" card of the variant homepage's `WhySection`. -/
def whyCard (icon strongText para : String) : Node :=
  .element "div" [("className", "whyCard")]
    [ .element "div" [("className", "whyIcon")] [.text icon]
    , .element "div" [("className", "whyText")]
        [ .element "strong" [] [.text strongText]
        , .element "p" [] [.text para] ] ]

/-- The `WhySection` component of the variant homepage. -/
def WhySection : Node :=
  .element "section" [("className", "whySection")]
    [ .element "div" [("className", "container")]
        [ .element "div" [("className", "row")]
            [ .element "div" [("className", "col col--8 col--offset-2")]
                [ .element "Heading" [("as", "h2"), ("className", "text--center margin-bottom--lg")]
                    [.text "Why Learn With Us?"]
                , .element "div" [("className", "whyCards")]
                    [ whyCard "📚" "Comprehensive Content"
                        "From fundamentals to advanced concepts, we cover it all"
                    , whyCard "💡" "Practical Examples"
                        "Learn by doing with real-world examples and projects"
                    , whyCard "🚀" "Modern Technologies"
                        "Stay updated with the latest tools and frameworks"
                    , whyCard "🔍" "Clear Explanations"
                        "Complex topics broken down into digestible concepts" ] ] ] ] ]

/-- The `RecentUpdates` component of the variant homepage. -/
def RecentUpdates : Node :=
  .element "section" [("className", "recentUpdates")]
    [ .element "div" [("className", "container")]
        [ .element "div" [("className", "row")]
            [ .element "div" [("className", "col col--10 col--offset-1")]
                [ .element "Heading" [("as", "h2"), ("className", "text--center margin-bottom--lg")]
                    [.text "Recent Updates"]
                , .element "div" [("className", "updateCard")]
                    [ .element "div" [("className", "updateDate")] [.text "June 15, 2023"]
                    , .element "Heading" [("as", "h3")] [.text "New React.js Content Added"]
                    , .element "p" []
                        [.text "We\x27ve expanded our React.js documentation with comprehensive guides on hooks, state management, performance optimization, testing, and security."]
                    , .element "Link" [("to", "/docs/web-development/reactjs/hooks")]
                        [.text "Check out the new content →"] ]
                , .element "div" [("className", "updateCard")]
                    [ .element "div" [("className", "updateDate")] [.text "June 10, 2023"]
                    , .element "Heading" [("as", "h3")] [.text "AI & Machine Learning Section Launched"]
                    , .element "p" []
                        [.text "Explore our new AI and Machine Learning section with comprehensive guides on algorithms, neural networks, and practical applications."]
                    , .element "Link" [("to", "/docs/ai/intro")] [.text "Start learning AI →"] ]
                , .element "div" [("className", "text--center margin-top--lg")]
                    [ .element "Link"
                        [("className", "button button--outline button--secondary"), ("to", "/blog")]
                        [.text "View All Updates"] ] ] ] ] ]

/-- The `Home` component of the variant homepage. -/
def HomeVariant (c : Config) : Node :=
  .element "Layout"
    [ ("title", c.title)
    , ("description", "A learning journey in tech, problem-solving, AI, web and app development") ]
    [ HomepageHeaderVariant c
    , .element "main" []
        [ .element "section" [("className", "features")]
            [ .element "div" [("className", "container")]
                [ .element "Heading" [("as", "h2"), ("className", "text--center margin-bottom--lg")]
                    [.text "What You\x27ll Learn"]
                , .element "div" [("className", "row")] (renderFeatures FeatureList) ] ]
        , WhySection
        , RecentUpdates ] ]

/-! ## Internal link targets -/

/-- Every internal link target appearing in the page components (current and
variant homepage markup) and in the site configuration (navbar `to` items and
footer `to` items), for the configuration evaluated at `year`. -/
def allInternalLinks (year : Int) : List String :=
  (Home (configAt year)).linkTargets
    ++ (HomeVariant (configAt year)).linkTargets
    ++ footerInternalLinks (configAt year)
    ++ navbarInternalLinks (configAt year)

/-! ## Card accessors

Fixed paths into the markup a `Feature` card produces: the heading text, the
"Learn More" link's target and its text. -/

def cardHeading (card : Node) : Option String :=
  ((((card.child 0).bind (fun n => n.child 0)).bind (fun n => n.child 1)).bind
    (fun n => n.child 0)).bind Node.textOf

def cardLinkTarget (card : Node) : Option String :=
  (((card.child 0).bind (fun n => n.child 2)).bind (fun n => n.child 0)).bind
    (fun n => n.attr "to")

def cardLinkText (card : Node) : Option String :=
  ((((card.child 0).bind (fun n => n.child 2)).bind (fun n => n.child 0)).bind
    (fun n => n.child 0)).bind Node.textOf

/-! ## Theorems -/

/-- C1: The `sidebars` value is a finite tree (19 nodes across the four
sidebars; acyclicity and finiteness hold by construction of the inductive
`SidebarItem` tree, and the node count evaluates to a concrete numeral), and
every document id it references — every leaf string item and every category
link's doc id, across all four sidebars — names a document of the docs
corpus. -/
theorem sidebar_tree_finite_and_refs_exist :
    (allSidebarDocIds.all fun id => docsCorpusIds.contains id) = true ∧
    totalSidebarNodes = 19 ∧ sidebars.length = 4 := by
  decide

/-- C2 (counterexample): the site configuration is not invariant across
evaluations — evaluated in 2025 and in 2026 it yields different values,
because the footer copyright string embeds the evaluation-time year. -/
theorem config_two_evaluations_differ : configAt 2025 ≠ configAt 2026 := by
  intro h
  exact absurd (congrArg Config.copyright h) (by decide)

/-- C2 (amended): every field of the configuration other than the footer
copyright is the same across any two evaluations, and the copyright equals
"Copyright © <year> Nahid Learns." for the evaluation-time year — so
evaluations in different years differ exactly there. -/
theorem config_constant_except_copyright (y y' : Int) :
    configAt y =
      { configAt y' with copyright := "Copyright © " ++ toString y ++ " Nahid Learns." } :=
  rfl

/-- C3: rendering the features section over any feature-item array yields
exactly one card per entry in array order; the card for entry `i` is
`Feature` of entry `i`, its heading text equals the entry's title, and its
"Learn More" link targets the entry's link. -/
theorem feature_cards_one_per_entry (fs : List FeatureItem) (i : Nat)
    (h : i < fs.length) :
    (renderFeatures fs).length = fs.length ∧
    (renderFeatures fs).get? i = some (Feature (fs.get ⟨i, h⟩)) ∧
    cardHeading (Feature (fs.get ⟨i, h⟩)) = some (fs.get ⟨i, h⟩).title ∧
    cardLinkTarget (Feature (fs.get ⟨i, h⟩)) = some (fs.get ⟨i, h⟩).link ∧
    cardLinkText (Feature (fs.get ⟨i, h⟩)) = some "Learn More" := by
  refine ⟨List.length_map _ _, ?_, rfl, rfl, rfl⟩
  rw [renderFeatures, List.get?_map, List.get?_eq_get h]
  rfl

/-- C3 (witness): the theorem applied to the homepage's `FeatureList` at
index 0. -/
theorem feature_cards_one_per_entry_witness :
    0 < FeatureList.length ∧
    ((renderFeatures FeatureList).length = FeatureList.length ∧
     (renderFeatures FeatureList).get? 0 = some (Feature (FeatureList.get ⟨0, by decide⟩)) ∧
     cardHeading (Feature (FeatureList.get ⟨0, by decide⟩))
       = some (FeatureList.get ⟨0, by decide⟩).title ∧
     cardLinkTarget (Feature (FeatureList.get ⟨0, by decide⟩))
       = some (FeatureList.get ⟨0, by decide⟩).link ∧
     cardLinkText (Feature (FeatureList.get ⟨0, by decide⟩)) = some "Learn More") :=
  ⟨by decide, feature_cards_one_per_entry FeatureList 0 (by decide)⟩

/-- C4 (counterexample): the internal link targets of the page components and
site configuration include the variant homepage's "/docs/intro" (the
Documentation button), yet no page the build produces has that route — there
is no document with id `intro` in the corpus. -/
theorem variant_doc_button_link_unresolved :
    "/docs/intro" ∈ allInternalLinks 2025 ∧ "/docs/intro" ∉ builtRoutes := by
  decide

/-- C4 (amended): every internal link target of the homepage (current and
variant), footer and navbar resolves to a built page — a `/docs/<id>` page of
a corpus document or the blog index — except the single target "/docs/intro"
of the variant homepage's Documentation button, which resolves to nothing
(the current homepage keeps that button commented out). -/
theorem internal_links_resolve_except_variant_doc_button (y : Int) :
    ((allInternalLinks y).filter (fun l => l != "/docs/intro")).all
        (fun l => builtRoutes.contains l) = true ∧
    (allInternalLinks y).contains "/docs/intro" = true ∧
    builtRoutes.contains "/docs/intro" = false :=
  ⟨rfl, rfl, rfl⟩

/-- C5 (counterexample): the configuration's error-policy settings are not
only `onBrokenLinks`/`onBrokenMarkdownLinks`: the blog options also configure
`onInlineTags`, `onInlineAuthors` and `onUntruncatedBlogPosts`. -/
theorem error_settings_beyond_spec :
    errorHandlingSettings (configAt 2025) ≠ specErrorHandlingSettings := by
  decide

/-- C5 (amended): the configuration sets `onBrokenLinks` to "throw" (a broken
internal link fails the build) and `onBrokenMarkdownLinks` to "warn" (a broken
Markdown link only warns), and the only further error handling it configures
are the three blog warnings `onInlineTags`, `onInlineAuthors`,
`onUntruncatedBlogPosts`, each set to "warn". -/
theorem error_settings_exact (y : Int) :
    (configAt y).onBrokenLinks = "throw" ∧
    (configAt y).onBrokenMarkdownLinks = "warn" ∧
    errorHandlingSettings (configAt y) =
      specErrorHandlingSettings ++
        [ ("onInlineTags", "warn")
        , ("onInlineAuthors", "warn")
        , ("onUntruncatedBlogPosts", "warn") ] :=
  ⟨rfl, rfl, rfl⟩

/-- C6: `Home`, `HomepageHeader` and `Feature` are stateless deterministic
functions of their inputs: for any two configurations agreeing on title and
tagline, the rendered markup is identical (so it depends on nothing besides
those inputs and the feature-item list), and `Feature` is determined by its
item. -/
theorem components_depend_only_on_inputs (c c' : Config) (fs : List FeatureItem)
    (ht : c.title = c'.title) (hg : c.tagline = c'.tagline) :
    HomepageHeader c = HomepageHeader c' ∧
    HomeWith c fs = HomeWith c' fs ∧
    Home c = Home c' ∧
    ∀ f f' : FeatureItem, f = f' → Feature f = Feature f' := by
  have h1 : HomepageHeader c = HomepageHeader c' := by
    unfold HomepageHeader
    rw [ht, hg]
  have h2 : ∀ gs : List FeatureItem, HomeWith c gs = HomeWith c' gs := by
    intro gs
    unfold HomeWith
    rw [ht, h1]
  exact ⟨h1, h2 fs, by unfold Home; exact h2 FeatureList, fun f f' hf => by rw [hf]⟩

/-- C6 (witness): the theorem applied to the configuration evaluated in 2025
and in 2026 — two distinct configuration values (their copyrights differ)
that agree on title and tagline and render identically. -/
theorem components_depend_only_on_inputs_witness :
    (configAt 2025).title = (configAt 2026).title ∧
    (configAt 2025).tagline = (configAt 2026).tagline ∧
    (HomepageHeader (configAt 2025) = HomepageHeader (configAt 2026) ∧
     HomeWith (configAt 2025) FeatureList = HomeWith (configAt 2026) FeatureList ∧
     Home (configAt 2025) = Home (configAt 2026) ∧
     ∀ f f' : FeatureItem, f = f' → Feature f = Feature f') :=
  ⟨rfl, rfl,
    components_depend_only_on_inputs (configAt 2025) (configAt 2026) FeatureList rfl rfl⟩

/-- C7: `Feature` and `HomepageHeader` are branch-free mappings: for all
inputs the rendered markup has one and the same node structure (tags,
attribute names, text-slot positions), the inputs showing up only as text
content and attribute values, which the shape erases. -/
theorem components_branch_free (f g : FeatureItem) (c c' : Config) :
    (Feature f).shape = (Feature g).shape ∧
    (HomepageHeader c).shape = (HomepageHeader c').shape :=
  ⟨rfl, rfl⟩

/-- C8: every content Markdown document of the docs corpus carries a
front-matter block with an integer-valued `sidebar_position` key. -/
theorem docs_have_integer_sidebar_position :
    (docsCorpus.all fun d => d.sidebarPosition.isSome) = true ∧
    docsCorpus.length = 20 := by
  decide

/-- C9: each navbar `docSidebar` item references a `sidebarId` that is a key
of the `sidebars` object — in source order `problemSolvingSidebar`,
`webDevSidebar`, `aiSidebar`, `appDevSidebar` — so every navbar entry
resolves to a defined sidebar. -/
theorem navbar_sidebar_ids_resolve (y : Int) :
    navbarSidebarIds (configAt y) =
      ["problemSolvingSidebar", "webDevSidebar", "aiSidebar", "appDevSidebar"] ∧
    (navbarSidebarIds (configAt y)).all
      (fun sid => (sidebars.map Prod.fst).contains sid) = true :=
  ⟨rfl, rfl⟩

/-- C10: across all four sidebars, every referenced document id occurs
exactly once — no id appears both as a category link and a leaf item, nor in
two different sidebars. -/
theorem sidebar_doc_ids_unique : allSidebarDocIds.Nodup := by
  decide

end NahidLearns
